import Mathlib

/-!
Verification development for the Feishu/Dify relay service (`src/gaode/app.py`).

The service relays chat-platform webhook messages to a conversational AI
backend, consumes the AI's streamed response, aggregates fragments into
outbound chunks (threshold 50 characters), delivers them to the chat, and
records the conversation identifier per identity in a process-wide store.

The Python source is shallowly embedded below:
* JSON dictionaries flowing through the stream are embedded as `PyDict`,
  a record of the optional fields the code reads (`event`, `answer`,
  `conversation_id`, `message`, `error`); `dict.get(k)` becomes field
  access, `dict.get(k, d)` becomes `Option.getD`.
* Network effects are oracles: `Env.tokenResult` is the outcome of
  `get_feishu_access_token()` (`Except.error e` = the call raised, and the
  exception text is `e`); `Env.sendOk n` is the network outcome of the
  `n`-th executed `send_feishu_message` call of the turn;
  `Env.now` is the value of `datetime.now()` used for a store write.
* `json.loads` of stream lines and of the inbound message `content` field
  are opaque collaborators, passed as `String → Option _` parameters
  (`none` = `json.JSONDecodeError` raised).
* The process-wide `conversation_store` dict is threaded explicitly as a
  partial map `String → Option ConvRecord`.
-/

namespace FeishuGaode

/-- A parsed JSON object as the turn processor sees it: only the keys the
code of `app.py` ever reads. A `none` field means the key is absent. -/
structure PyDict where
  event : Option String := none
  answer : Option String := none
  conversation_id : Option String := none
  message : Option String := none
  error : Option String := none
deriving DecidableEq, Repr

/-- A `conversation_store` entry: `\x7b"conversation_id": ..., "updated_at": ...\x7d`
(app.py lines 178-181). Timestamps are abstracted to `Nat`. -/
structure ConvRecord where
  conversation_id : String
  updated_at : Nat
deriving DecidableEq, Repr

/-- Outcomes of the external collaborators during one turn.
`tokenResult` is the result of `get_feishu_access_token()`: `Except.ok t`
means it returned token `t`, `Except.error e` means it raised with text `e`.
`sendOk n` tells whether the `n`-th executed `send_feishu_message` network
call of the turn succeeds. `now` is `datetime.now()` at a store write. -/
structure Env where
  tokenResult : Except String String
  sendOk : Nat → Bool
  now : Nat

/-- Observable state of one `process_ai_response` turn:
the `accumulated_response` string, the trace of executed
`send_feishu_message` calls (content sent, and whether the call
succeeded), and the `conversation_store` contents. -/
structure TurnState where
  accumulated : String
  calls : List (String × Bool)
  store : String → Option ConvRecord

/-- One executed `send_feishu_message access_token user_id content` call:
the outcome is decided by the environment oracle at the current call
index; the call is recorded in the trace either way. Returns the new
state and whether the call succeeded (`false` = it raised). -/
def send_feishu_message (env : Env) (st : TurnState) (content : String) :
    TurnState × Bool :=
  let ok := env.sendOk st.calls.length
  ({ st with calls := st.calls ++ [(content, ok)] }, ok)

/-- The body of the `async for` loop of `process_ai_response`
(app.py lines 156-189), for one stream event `d`. All deliveries of a turn
target `user_id`, so the call trace records contents only. -/
def processEvent (env : Env) (st : TurnState) (userId : String) (d : PyDict) :
    TurnState :=
  if d.event = some "message" then
    let answer_chunk := d.answer.getD ""
    let acc := st.accumulated ++ answer_chunk
    if acc.length ≥ 50 then
      -- try: send; on success reset the accumulator; a raise skips the
      -- reset (the `accumulated_response = ""` line is inside the try,
      -- after the await) and is logged.
      let (st1, ok) := send_feishu_message env { st with accumulated := acc } acc
      if ok then { st1 with accumulated := "" } else st1
    else
      { st with accumulated := acc }
  else if d.event = some "message_end" then
    let st1 :=
      if st.accumulated ≠ "" then (send_feishu_message env st st.accumulated).1
      else st
    -- `if new_conversation_id:` — Python truthiness: present and non-empty.
    match d.conversation_id with
    | some cid =>
        if cid ≠ "" then
          { st1 with
            store := fun k => if k = userId then some ⟨cid, env.now⟩ else st1.store k }
        else st1
    | none => st1
  else if d.event = some "error" then
    let error_message := d.message.getD "未知错误"
    (send_feishu_message env st ("处理您的请求时遇到错误: " ++ error_message)).1
  else
    st

/-- One item produced by iterating `call_dify_api(...)`: either a yielded
event dictionary, or the iteration raising an exception with text `msg`
(at which point the `async for` loop aborts into the outer `except`). -/
inductive StreamItem where
  | ev (d : PyDict)
  | exc (msg : String)
deriving Repr

/-- Iterate the stream from state `st`: process yielded events in order;
stop at the first raising item, returning the exception text. -/
def runEvents (env : Env) (userId : String) :
    TurnState → List StreamItem → TurnState × Option String
  | st, [] => (st, none)
  | st, .ev d :: rest => runEvents env userId (processEvent env st userId d) rest
  | st, .exc m :: _ => (st, some m)

/-- The turn processor `process_ai_response(message, user_id, conversation_id)`
(app.py lines 149-195). `message` and `conversation_id` only shape the AI
request, which the `stream` argument abstracts. `store0` is the
`conversation_store` at turn start.

If `get_feishu_access_token()` raises, the outer `except` runs with the
local `access_token` never bound: the `send_feishu_message(access_token, ...)`
attempt on line 193 raises `NameError` before any network call, which the
inner `except` catches and logs — so the turn ends with no delivery call
executed and the store untouched. If stream iteration raises with text
`m`, the outer `except` attempts to deliver `"系统错误: " ++ m` (failure of
that delivery is caught and logged). The function itself always returns. -/
def process_ai_response (env : Env) (message userId : String)
    (conversation_id : Option String) (store0 : String → Option ConvRecord)
    (stream : List StreamItem) : TurnState :=
  let st0 : TurnState := { accumulated := "", calls := [], store := store0 }
  match env.tokenResult with
  | .error _ => st0
  | .ok _ =>
      match runEvents env userId st0 stream with
      | (st, none) => st
      | (st, some m) => (send_feishu_message env st ("系统错误: " ++ m)).1

/-- The dictionary yielded for a stream object containing an `error` key
(app.py line 89): `\x7b"event": "error", "message": f"MCP API错误: ..."\x7d`. -/
def mcpErrorEvent (d : PyDict) : PyDict :=
  { event := some "error", message := some ("MCP API错误: " ++ d.error.getD "") }

/-- The line loop of `call_dify_api` (app.py lines 82-94): each response
line starting with `"data: "` has its remainder parsed as JSON
(`jsonParse`, `none` = `json.JSONDecodeError`, line skipped); a parsed
object with an `error` key yields an error event, otherwise the object is
yielded directly. Other lines are ignored. Python strings are sequences
of code points, so `line.startswith("data: ")` and the slice `line[6:]`
are embedded on the character list `line.data`. -/
def call_dify_api_lines (jsonParse : String → Option PyDict) :
    List String → List PyDict
  | [] => []
  | line :: rest =>
      if "data: ".data.isPrefixOf line.data then
        match jsonParse (String.mk (line.data.drop 6)) with
        | none => call_dify_api_lines jsonParse rest
        | some d =>
            (if d.error.isSome then mcpErrorEvent d else d)
              :: call_dify_api_lines jsonParse rest
      else
        call_dify_api_lines jsonParse rest

/-! Webhook ingress (`feishu_webhook`, app.py lines 202-254). -/

/-- The `event.sender.sender_id` object of a webhook payload. -/
structure SenderId where
  open_id : Option String := none
deriving DecidableEq

/-- The `event.sender` object of a webhook payload. -/
structure SenderData where
  sender_id : Option SenderId := none
deriving DecidableEq

/-- The `event.message` object of a webhook payload. -/
structure MessageData where
  message_type : Option String := none
  content : Option String := none
  chat_id : Option String := none
deriving DecidableEq

/-- The `event` object of a webhook payload. -/
structure EventData where
  message : Option MessageData := none
  sender : Option SenderData := none
deriving DecidableEq

/-- A successfully parsed webhook JSON body: the keys `feishu_webhook`
reads. A `some` field means the key is present. -/
structure WebhookData where
  challenge : Option String := none
  event : Option EventData := none

/-- The raw webhook body: either `json.loads` (or UTF-8 decoding) raised,
or it parsed to a `WebhookData`. -/
inductive WebhookBody where
  | invalid
  | valid (d : WebhookData)

/-- Parse result of the inner `content` JSON string of a text message. -/
structure ContentData where
  text : Option String := none
deriving DecidableEq

/-- The HTTP response of `feishu_webhook`:
`challengeEcho c` is `\x7b"challenge": c, "code": 0\x7d`,
`successAck` is `\x7b"code": 0, "msg": "success"\x7d`. -/
inductive WebhookResponse where
  | challengeEcho (challenge : String)
  | successAck
deriving DecidableEq, Repr

/-- The fire-and-forget task spawned by
`asyncio.create_task(process_ai_response(text, receive_id, conversation_id))`:
its three arguments. `none` = no task was spawned by the request. -/
structure TaskSpawn where
  text : String
  receive_id : String
  conversation_id : Option String
deriving DecidableEq, Repr

/-- Python truthiness of an optional string (`if x:`): present and non-empty. -/
def truthyStr : Option String → Bool
  | some s => s ≠ ""
  | none => false

/-- The webhook handler `feishu_webhook` (app.py lines 202-254). `contentParse` embeds the
inner `json.loads(message_content)` call (`none` = it raised, caught by the
outer `except`, which still returns the success acknowledgement).
`store` is the `conversation_store` read for the existing conversation id.
Returns the HTTP response and the spawned turn task, if any; tokens, AI
calls and deliveries happen only inside the spawned task, and the store is
read only to fill the task's `conversation_id` argument. -/
def feishu_webhook (contentParse : String → Option ContentData)
    (store : String → Option ConvRecord) (body : WebhookBody) :
    WebhookResponse × Option TaskSpawn :=
  match body with
  | .invalid => (.successAck, none)
  | .valid d =>
    match d.challenge with
    | some c => (.challengeEcho c, none)
    | none =>
      match d.event with
      | none => (.successAck, none)
      | some ev =>
        let msg := ev.message.getD {}
        if msg.message_type = some "text" then
          let message_content := msg.content.getD "\x7b\x7d"
          match contentParse message_content with
          | none => (.successAck, none)
          | some cj =>
            let text := cj.text.getD ""
            let sender_id := ((ev.sender.getD {}).sender_id.getD {}).open_id
            let chat_id := msg.chat_id
            let receive_id := if truthyStr chat_id then chat_id else sender_id
            match receive_id with
            | some rid =>
                if rid ≠ "" then
                  (.successAck,
                   some ⟨text, rid, (store rid).map (·.conversation_id)⟩)
                else (.successAck, none)
            | none => (.successAck, none)
        else (.successAck, none)

/-! Event constructors used in the theorems: the concrete dictionaries the
stream yields for `message`, `message_end` and `error` events. -/

/-- A `message` event carrying answer fragment `s`. -/
def msgEvent (s : String) : PyDict :=
  { event := some "message", answer := some s }

/-- A `message_end` event carrying (optionally) a conversation id. -/
def msgEndEvent (cid : Option String) : PyDict :=
  { event := some "message_end", conversation_id := cid }

/-! General helper lemmas shared by the claim theorems. -/

/-- A string of length at least 50 is non-empty. -/
theorem ne_empty_of_len50 (s : String) (h : 50 ≤ s.length) : s ≠ "" := by
  intro he
  rw [he] at h
  exact absurd h (by decide)

/-- Running a stream that contains only yielded events (no raise) folds
`processEvent` over the events and reports no exception. -/
theorem runEvents_map_ev (env : Env) (userId : String) (st : TurnState)
    (l : List PyDict) :
    runEvents env userId st (l.map .ev)
      = (l.foldl (fun s d => processEvent env s userId d) st, none) := by
  induction l generalizing st with
  | nil => rfl
  | cons d rest ih => simp [runEvents, ih]

/-- Claim C1: for the stream yielding Message fragments "Hi ", "there, ",
"how can I help you today with your inquiry" (cumulative length reaching
50 only on the third) and then MessageEnd, with every delivery succeeding,
the turn makes exactly one delivery call, already before the MessageEnd
event is handled, with the concatenation of the three fragments as text;
MessageEnd adds no further call and leaves the accumulator empty. -/
theorem c1_single_flush_before_message_end :
    (runEvents { tokenResult := Except.ok "tok", sendOk := fun _ => true, now := 0 } "ou_123"
        { accumulated := "", calls := [], store := fun _ => none }
        [StreamItem.ev (msgEvent "Hi "), StreamItem.ev (msgEvent "there, "),
         StreamItem.ev (msgEvent "how can I help you today with your inquiry")]).1.calls
      = [("Hi there, how can I help you today with your inquiry", true)]
    ∧ (process_ai_response
        { tokenResult := Except.ok "tok", sendOk := fun _ => true, now := 0 }
        "q" "ou_123" none (fun _ => none)
        [StreamItem.ev (msgEvent "Hi "), StreamItem.ev (msgEvent "there, "),
         StreamItem.ev (msgEvent "how can I help you today with your inquiry"),
         StreamItem.ev (msgEndEvent none)]).calls
      = [("Hi there, how can I help you today with your inquiry", true)]
    ∧ (process_ai_response
        { tokenResult := Except.ok "tok", sendOk := fun _ => true, now := 0 }
        "q" "ou_123" none (fun _ => none)
        [StreamItem.ev (msgEvent "Hi "), StreamItem.ev (msgEvent "there, "),
         StreamItem.ev (msgEvent "how can I help you today with your inquiry"),
         StreamItem.ev (msgEndEvent none)]).accumulated = "" := by
  refine ⟨by decide, by decide, by decide⟩

/-- Claim C2 counterexample: a Message event whose fragment brings the
accumulator to 50 characters triggers a delivery call, but when that call
fails the accumulator is NOT reset to empty before the next event — the
claim's "regardless of the delivery call's outcome" is false on the code
(the reset statement sits after the await inside the try block). -/
theorem c2_counterexample_no_reset_on_failed_flush :
    ¬ ((process_ai_response
        { tokenResult := Except.ok "tok", sendOk := fun _ => false, now := 0 }
        "q" "ou_123" none (fun _ => none)
        [StreamItem.ev (msgEvent (String.mk (List.replicate 50 'a')))]).accumulated
      = "") := by
  decide

/-- Claim C2 (amended): every Message event that brings the accumulator to
50 or more characters triggers exactly one delivery call of the
accumulated text; the accumulator is reset to empty exactly when that
delivery call succeeds, and retains the accumulated text when it fails. -/
theorem c2_threshold_flush_resets_on_success (env : Env) (userId frag : String)
    (st : TurnState) (h : 50 ≤ (st.accumulated ++ frag).length) :
    (processEvent env st userId (msgEvent frag)).calls
        = st.calls ++ [(st.accumulated ++ frag, env.sendOk st.calls.length)]
      ∧ (processEvent env st userId (msgEvent frag)).accumulated
        = (if env.sendOk st.calls.length then "" else st.accumulated ++ frag) := by
  have h2 : 50 ≤ st.accumulated.length + frag.length := by
    simpa [String.length_append] using h
  by_cases hok : env.sendOk st.calls.length <;>
    simp [processEvent, msgEvent, send_feishu_message, h2, hok]

/-- Witness for C2 (amended) at a concrete 50-character fragment with a
succeeding delivery. -/
theorem c2_threshold_flush_resets_on_success_witness :
    50 ≤ (("" : String) ++ String.mk (List.replicate 50 'a')).length
    ∧ ((processEvent { tokenResult := Except.ok "t", sendOk := fun _ => true, now := 0 }
          { accumulated := "", calls := [], store := fun _ => none } "ou_1"
          (msgEvent (String.mk (List.replicate 50 'a')))).calls
        = [] ++ [(("" : String) ++ String.mk (List.replicate 50 'a'), true)]
      ∧ (processEvent { tokenResult := Except.ok "t", sendOk := fun _ => true, now := 0 }
          { accumulated := "", calls := [], store := fun _ => none } "ou_1"
          (msgEvent (String.mk (List.replicate 50 'a')))).accumulated
        = (if true then "" else ("" : String) ++ String.mk (List.replicate 50 'a'))) :=
  ⟨by decide, c2_threshold_flush_resets_on_success _ _ _ _ (by decide)⟩

/-- When token acquisition succeeds, `process_ai_response` runs the event
loop and, if iteration raised, attempts the system-error delivery. -/
theorem process_ai_response_ok (env : Env) (tok message userId : String)
    (conv0 : Option String) (store0 : String → Option ConvRecord)
    (stream : List StreamItem) (hTok : env.tokenResult = Except.ok tok) :
    process_ai_response env message userId conv0 store0 stream
      = (match runEvents env userId
            { accumulated := "", calls := [], store := store0 } stream with
         | (st, none) => st
         | (st, some m) => (send_feishu_message env st ("系统错误: " ++ m)).1) := by
  unfold process_ai_response
  rw [hTok]

/-- Processing a `message_end` event carrying a non-empty conversation id
writes that id, with the current time, to the store under the turn's
identity — replacing any previous entry. -/
theorem processEvent_message_end_store (env : Env) (st : TurnState)
    (userId cid : String) (hcid : cid ≠ "") :
    (processEvent env st userId (msgEndEvent (some cid))).store userId
      = some ⟨cid, env.now⟩ := by
  unfold processEvent
  simp [msgEndEvent, hcid, send_feishu_message]

/-- Processing a `message_end` event with a non-empty accumulator makes
exactly one delivery call of the accumulated text, whatever the
conversation-id field holds. -/
theorem processEvent_message_end_calls (env : Env) (st : TurnState)
    (userId : String) (cid : Option String) (hacc : st.accumulated ≠ "") :
    (processEvent env st userId (msgEndEvent cid)).calls
      = st.calls ++ [(st.accumulated, env.sendOk st.calls.length)] := by
  unfold processEvent
  cases cid with
  | none => simp [msgEndEvent, hacc, send_feishu_message]
  | some c =>
      by_cases hc : c = "" <;> simp [msgEndEvent, hacc, hc, send_feishu_message]

/-- Claim C3: a delivery failure on a mid-turn threshold flush is
swallowed and the turn continues: a later MessageEnd still makes its own
delivery call of the (still accumulated) text, and still writes the
conversation store when the event carries a conversation identifier. -/
theorem c3_failed_flush_turn_continues (env : Env)
    (tok message userId big cid : String)
    (store0 : String → Option ConvRecord)
    (hTok : env.tokenResult = Except.ok tok)
    (hLen : 50 ≤ big.length)
    (h0 : env.sendOk 0 = false) (h1 : env.sendOk 1 = true) (hcid : cid ≠ "") :
    (process_ai_response env message userId none store0
        [StreamItem.ev (msgEvent big), StreamItem.ev (msgEndEvent (some cid))]).calls
        = [(big, false), (big, true)]
    ∧ (process_ai_response env message userId none store0
        [StreamItem.ev (msgEvent big), StreamItem.ev (msgEndEvent (some cid))]).store userId
        = some ⟨cid, env.now⟩ := by
  have hne : big ≠ "" := ne_empty_of_len50 big hLen
  rw [process_ai_response_ok env tok message userId none store0 _ hTok]
  simp [runEvents, processEvent, msgEvent, msgEndEvent, send_feishu_message,
        hLen, h0, h1, hne, hcid]

/-- Witness for C3: a 50-character fragment whose flush fails, followed by
a MessageEnd carrying "conv-42", with the second delivery succeeding. -/
theorem c3_failed_flush_turn_continues_witness :
    ({ tokenResult := Except.ok "tok", sendOk := fun n => n == 1, now := 7 } : Env).tokenResult
        = Except.ok "tok"
    ∧ 50 ≤ (String.mk (List.replicate 50 'a')).length
    ∧ ({ tokenResult := Except.ok "tok", sendOk := fun n => n == 1, now := 7 } : Env).sendOk 0 = false
    ∧ ({ tokenResult := Except.ok "tok", sendOk := fun n => n == 1, now := 7 } : Env).sendOk 1 = true
    ∧ ("conv-42" : String) ≠ ""
    ∧ (process_ai_response
        { tokenResult := Except.ok "tok", sendOk := fun n => n == 1, now := 7 }
        "q" "ou_123" none (fun _ => none)
        [StreamItem.ev (msgEvent (String.mk (List.replicate 50 'a'))),
         StreamItem.ev (msgEndEvent (some "conv-42"))]).calls
        = [(String.mk (List.replicate 50 'a'), false),
           (String.mk (List.replicate 50 'a'), true)]
    ∧ (process_ai_response
        { tokenResult := Except.ok "tok", sendOk := fun n => n == 1, now := 7 }
        "q" "ou_123" none (fun _ => none)
        [StreamItem.ev (msgEvent (String.mk (List.replicate 50 'a'))),
         StreamItem.ev (msgEndEvent (some "conv-42"))]).store "ou_123"
        = some ⟨"conv-42", 7⟩ := by
  refine ⟨rfl, by decide, rfl, rfl, by decide, ?_, ?_⟩
  · exact (c3_failed_flush_turn_continues _ _ _ _ _ _ _ rfl (by decide) rfl rfl
      (by decide)).1
  · exact (c3_failed_flush_turn_continues _ _ _ _ _ _ _ rfl (by decide) rfl rfl
      (by decide)).2

/-- Claim C4: a turn whose stream ends with a MessageEnd carrying a
non-empty conversation id leaves the store mapping the turn's identity to
that id with the time of the write, whatever events came before. -/
theorem c4_message_end_updates_store (env : Env) (tok message userId cid : String)
    (conv0 : Option String) (store0 : String → Option ConvRecord)
    (pre : List PyDict)
    (hTok : env.tokenResult = Except.ok tok) (hcid : cid ≠ "") :
    (process_ai_response env message userId conv0 store0
        (pre.map .ev ++ [StreamItem.ev (msgEndEvent (some cid))])).store userId
      = some ⟨cid, env.now⟩ := by
  rw [process_ai_response_ok env tok message userId conv0 store0 _ hTok]
  have hm : pre.map StreamItem.ev ++ [StreamItem.ev (msgEndEvent (some cid))]
      = (pre ++ [msgEndEvent (some cid)]).map StreamItem.ev := by simp
  rw [hm, runEvents_map_ev]
  show ((pre ++ [msgEndEvent (some cid)]).foldl
      (fun s d => processEvent env s userId d)
      { accumulated := "", calls := [], store := store0 }).store userId
      = some ⟨cid, env.now⟩
  rw [List.foldl_append]
  exact processEvent_message_end_store env _ userId cid hcid

/-- Witness for C4 at identity "ou_123" and conversation id "conv-42". -/
theorem c4_message_end_updates_store_witness :
    ({ tokenResult := Except.ok "tok", sendOk := fun _ => true, now := 5 } : Env).tokenResult
        = Except.ok "tok"
    ∧ ("conv-42" : String) ≠ ""
    ∧ (process_ai_response
        { tokenResult := Except.ok "tok", sendOk := fun _ => true, now := 5 }
        "hello" "ou_123" none (fun _ => none)
        (([] : List PyDict).map .ev
          ++ [StreamItem.ev (msgEndEvent (some "conv-42"))])).store "ou_123"
      = some ⟨"conv-42", 5⟩ :=
  ⟨rfl, by decide,
   c4_message_end_updates_store _ _ _ _ _ _ _ [] rfl (by decide)⟩

/-- Claim C10: when `get_feishu_access_token` raises, the turn makes no
delivery call at all (the system-error attempt dies on the unbound
`access_token` local before reaching the network), leaves the conversation
store unchanged, and `process_ai_response` still returns normally. -/
theorem c10_token_failure_silent (env : Env) (message userId : String)
    (conversation_id : Option String) (store0 : String → Option ConvRecord)
    (stream : List StreamItem) (e : String)
    (h : env.tokenResult = Except.error e) :
    process_ai_response env message userId conversation_id store0 stream
      = { accumulated := "", calls := [], store := store0 } := by
  unfold process_ai_response
  rw [h]

/-- Witness for C10 at a concrete failing token acquisition. -/
theorem c10_token_failure_silent_witness :
    ({ tokenResult := Except.error "boom", sendOk := fun _ => true, now := 0 } : Env).tokenResult
        = Except.error "boom"
    ∧ process_ai_response
        { tokenResult := Except.error "boom", sendOk := fun _ => true, now := 0 }
        "hi" "ou_123" none (fun _ => none) [StreamItem.ev (msgEvent "x")]
      = { accumulated := "", calls := [], store := fun _ => none } :=
  ⟨rfl, c10_token_failure_silent _ _ _ _ _ _ _ rfl⟩

/-- The `challenge` field of a webhook body, when the body parsed and the
field is present. -/
def challengeOf : WebhookBody → Option String
  | .invalid => none
  | .valid d => d.challenge

/-- Claim C5: for every inbound webhook body without a challenge field —
including bodies that are not valid JSON, lack the expected event or
message fields, or whose inner content parse raises — the handler returns
the success acknowledgement; no processing error reaches the sender. -/
theorem c5_webhook_always_acknowledges (contentParse : String → Option ContentData)
    (store : String → Option ConvRecord) (body : WebhookBody)
    (h : challengeOf body = none) :
    (feishu_webhook contentParse store body).1 = WebhookResponse.successAck := by
  cases body with
  | invalid => rfl
  | valid d =>
      have hc : d.challenge = none := h
      simp only [feishu_webhook, hc]
      cases d.event with
      | none => rfl
      | some ev =>
          repeat' split
          all_goals rfl

/-- Witness for C5 at a body whose JSON parsing failed. -/
theorem c5_webhook_always_acknowledges_witness :
    challengeOf WebhookBody.invalid = none
    ∧ (feishu_webhook (fun _ => none) (fun _ => none) WebhookBody.invalid).1
      = WebhookResponse.successAck :=
  ⟨rfl, c5_webhook_always_acknowledges _ _ _ rfl⟩

/-- Claim C6: a stream line whose payload after the "data: " prefix is not
valid JSON yields no event at all, and the events parsed from the lines
around it — hence the whole turn run on them — are exactly as if the
malformed line were absent. -/
theorem c6_malformed_line_skipped (jsonParse : String → Option PyDict)
    (pre post : List String) (bad : String)
    (hdata : "data: ".data.isPrefixOf bad.data = true)
    (hparse : jsonParse (String.mk (bad.data.drop 6)) = none) :
    call_dify_api_lines jsonParse (pre ++ bad :: post)
        = call_dify_api_lines jsonParse (pre ++ post)
    ∧ ∀ (env : Env) (message userId : String) (conv0 : Option String)
        (store0 : String → Option ConvRecord),
        process_ai_response env message userId conv0 store0
            ((call_dify_api_lines jsonParse (pre ++ bad :: post)).map .ev)
          = process_ai_response env message userId conv0 store0
            ((call_dify_api_lines jsonParse (pre ++ post)).map .ev) := by
  have hmain : call_dify_api_lines jsonParse (pre ++ bad :: post)
      = call_dify_api_lines jsonParse (pre ++ post) := by
    induction pre with
    | nil => simp [call_dify_api_lines, hdata, hparse]
    | cons p ps ih =>
        simp only [List.cons_append, call_dify_api_lines]
        split
        · split <;> simp [ih]
        · exact ih
  exact ⟨hmain, fun env message userId conv0 store0 => by rw [hmain]⟩

/-- Witness for C6: a malformed "data: " line between two well-formed
message lines is dropped and changes nothing. -/
theorem c6_malformed_line_skipped_witness :
    "data: ".data.isPrefixOf ("data: ?!").data = true
    ∧ (fun s => if s = "ok" then some (msgEvent "hi") else none)
        (String.mk (("data: ?!").data.drop 6)) = none
    ∧ call_dify_api_lines (fun s => if s = "ok" then some (msgEvent "hi") else none)
        (["data: ok"] ++ "data: ?!" :: ["data: ok"])
      = call_dify_api_lines (fun s => if s = "ok" then some (msgEvent "hi") else none)
        (["data: ok"] ++ ["data: ok"]) := by
  refine ⟨by decide, by decide, ?_⟩
  exact (c6_malformed_line_skipped _ ["data: ok"] ["data: ok"] "data: ?!"
    (by decide) (by decide)).1

/-- Running a stream of yielded events followed by a raising item folds
the events and stops at the raise, ignoring everything after it. -/
theorem runEvents_map_ev_exc (env : Env) (userId : String) (st : TurnState)
    (l : List PyDict) (m : String) (rest : List StreamItem) :
    runEvents env userId st (l.map .ev ++ StreamItem.exc m :: rest)
      = (l.foldl (fun s d => processEvent env s userId d) st, some m) := by
  induction l generalizing st with
  | nil => rfl
  | cons d ds ih => simp [runEvents, ih]

/-- Claim C7: an uncaught failure while obtaining the token or iterating
the stream never propagates out of `process_ai_response`. On a token
failure the system-error delivery attempt dies on the unbound token local
(logged only) and the turn ends with the initial state. On a stream
failure with text m, the turn performs exactly one extra delivery call of
"系统错误: " followed by m, whose own failure is also only logged, and the
items after the raise are not processed. -/
theorem c7_failures_absorbed_system_error :
    (∀ (env : Env) (message userId : String) (conv0 : Option String)
        (store0 : String → Option ConvRecord) (stream : List StreamItem)
        (e : String),
        env.tokenResult = Except.error e →
        process_ai_response env message userId conv0 store0 stream
          = { accumulated := "", calls := [], store := store0 })
    ∧ (∀ (env : Env) (tok message userId : String) (conv0 : Option String)
        (store0 : String → Option ConvRecord) (pre : List PyDict)
        (m : String) (rest : List StreamItem),
        env.tokenResult = Except.ok tok →
        process_ai_response env message userId conv0 store0
            (pre.map .ev ++ StreamItem.exc m :: rest)
          = (send_feishu_message env
              (pre.foldl (fun s d => processEvent env s userId d)
                { accumulated := "", calls := [], store := store0 })
              ("系统错误: " ++ m)).1) := by
  constructor
  · intro env message userId conv0 store0 stream e h
    unfold process_ai_response
    rw [h]
  · intro env tok message userId conv0 store0 pre m rest hTok
    rw [process_ai_response_ok env tok message userId conv0 store0 _ hTok,
        runEvents_map_ev_exc]

/-- Witness for C7: a failing token acquisition, and separately a stream
that raises "boom" right away with the system-error delivery succeeding. -/
theorem c7_failures_absorbed_system_error_witness :
    process_ai_response
        { tokenResult := Except.error "authfail", sendOk := fun _ => true, now := 0 }
        "m" "ou_1" none (fun _ => none) []
      = { accumulated := "", calls := [], store := fun _ => none }
    ∧ process_ai_response
        { tokenResult := Except.ok "tok", sendOk := fun _ => true, now := 0 }
        "m" "ou_1" none (fun _ => none) [StreamItem.exc "boom"]
      = { accumulated := "", calls := [("系统错误: boom", true)], store := fun _ => none } :=
  ⟨c7_failures_absorbed_system_error.1
      { tokenResult := Except.error "authfail", sendOk := fun _ => true, now := 0 }
      "m" "ou_1" none (fun _ => none) [] "authfail" rfl,
   c7_failures_absorbed_system_error.2
      { tokenResult := Except.ok "tok", sendOk := fun _ => true, now := 0 }
      "tok" "m" "ou_1" none (fun _ => none) [] "boom" [] rfl⟩

/-- Every cumulative prefix of the fragments keeps the accumulator,
starting from `acc`, strictly under 50 characters. -/
def allPrefixesUnder (acc : String) : List String → Bool
  | [] => true
  | f :: rest => decide ((acc ++ f).length < 50) && allPrefixesUnder (acc ++ f) rest

/-- Message fragments that keep the accumulator strictly under the
threshold are appended in order without any delivery call. -/
theorem foldl_messages_under (env : Env) (userId : String) (frags : List String)
    (st : TurnState) (h : allPrefixesUnder st.accumulated frags = true) :
    frags.foldl (fun s f => processEvent env s userId (msgEvent f)) st
      = { st with accumulated := frags.foldl (· ++ ·) st.accumulated } := by
  induction frags generalizing st with
  | nil => rfl
  | cons f rest ih =>
      simp only [allPrefixesUnder, Bool.and_eq_true, decide_eq_true_eq] at h
      obtain ⟨h1, h2⟩ := h
      have hstep : processEvent env st userId (msgEvent f)
          = { st with accumulated := st.accumulated ++ f } := by
        have hlt : ¬ 50 ≤ st.accumulated.length + f.length := by
          rw [← String.length_append]; omega
        simp [processEvent, msgEvent, hlt]
      simp only [List.foldl_cons, hstep]
      exact ih _ h2

/-- Claim C8: with every Message fragment keeping the accumulator strictly
under 50 characters, the message events alone cause no delivery call, and
the turn closed by a MessageEnd with non-empty accumulator makes exactly
one delivery call, whose text is the concatenation of all fragments in
arrival order. -/
theorem c8_single_flush_at_message_end (env : Env) (tok message userId : String)
    (conv0 cid : Option String) (store0 : String → Option ConvRecord)
    (frags : List String)
    (hTok : env.tokenResult = Except.ok tok)
    (hUnder : allPrefixesUnder "" frags = true)
    (hne : frags.foldl (· ++ ·) "" ≠ "") :
    (runEvents env userId { accumulated := "", calls := [], store := store0 }
        (frags.map (fun f => StreamItem.ev (msgEvent f)))).1.calls = []
    ∧ (process_ai_response env message userId conv0 store0
        (frags.map (fun f => StreamItem.ev (msgEvent f))
          ++ [StreamItem.ev (msgEndEvent cid)])).calls
      = [(frags.foldl (· ++ ·) "", env.sendOk 0)] := by
  have hmsgs : frags.foldl
        (fun s f => processEvent env s userId (msgEvent f))
        { accumulated := "", calls := [], store := store0 }
      = { accumulated := frags.foldl (· ++ ·) "", calls := [], store := store0 } :=
    foldl_messages_under env userId frags _ hUnder
  constructor
  · have hm : frags.map (fun f => StreamItem.ev (msgEvent f))
        = (frags.map msgEvent).map StreamItem.ev := by simp
    rw [hm, runEvents_map_ev]
    show ((frags.map msgEvent).foldl
        (fun s d => processEvent env s userId d)
        { accumulated := "", calls := [], store := store0 }).calls = []
    rw [List.foldl_map, hmsgs]
  · rw [process_ai_response_ok env tok message userId conv0 store0 _ hTok]
    have hm : frags.map (fun f => StreamItem.ev (msgEvent f))
          ++ [StreamItem.ev (msgEndEvent cid)]
        = (frags.map msgEvent ++ [msgEndEvent cid]).map StreamItem.ev := by simp
    rw [hm, runEvents_map_ev]
    show ((frags.map msgEvent ++ [msgEndEvent cid]).foldl
        (fun s d => processEvent env s userId d)
        { accumulated := "", calls := [], store := store0 }).calls
      = [(frags.foldl (· ++ ·) "", env.sendOk 0)]
    rw [List.foldl_append, List.foldl_map, hmsgs]
    simp only [List.foldl_cons, List.foldl_nil]
    rw [processEvent_message_end_calls env _ userId cid hne]
    rfl

/-- Witness for C8: two short fragments and a MessageEnd, all deliveries
succeeding: one call, at MessageEnd, carrying "Hi there". -/
theorem c8_single_flush_at_message_end_witness :
    ({ tokenResult := Except.ok "tok", sendOk := fun _ => true, now := 0 } : Env).tokenResult
        = Except.ok "tok"
    ∧ allPrefixesUnder "" ["Hi ", "there"] = true
    ∧ (["Hi ", "there"].foldl (· ++ ·) "" ≠ "")
    ∧ (runEvents { tokenResult := Except.ok "tok", sendOk := fun _ => true, now := 0 }
        "ou_1" { accumulated := "", calls := [], store := fun _ => none }
        (["Hi ", "there"].map (fun f => StreamItem.ev (msgEvent f)))).1.calls = []
    ∧ (process_ai_response
        { tokenResult := Except.ok "tok", sendOk := fun _ => true, now := 0 }
        "q" "ou_1" none (fun _ => none)
        (["Hi ", "there"].map (fun f => StreamItem.ev (msgEvent f))
          ++ [StreamItem.ev (msgEndEvent none)])).calls
      = [(["Hi ", "there"].foldl (· ++ ·) "",
          ({ tokenResult := Except.ok "tok", sendOk := fun _ => true, now := 0 } : Env).sendOk 0)] := by
  refine ⟨rfl, by decide, by decide, ?_, ?_⟩
  · exact (c8_single_flush_at_message_end _ "tok" "q" "ou_1" none none _ _
      rfl (by decide) (by decide)).1
  · exact (c8_single_flush_at_message_end _ "tok" "q" "ou_1" none none _ _
      rfl (by decide) (by decide)).2

/-- Claim C9: a webhook payload containing a challenge field gets exactly
the challenge echo, and no turn task is spawned — so no token acquisition,
AI call, chat delivery, or conversation-store access happens for it. -/
theorem c9_challenge_echo_no_processing (contentParse : String → Option ContentData)
    (store : String → Option ConvRecord) (d : WebhookData) (c : String)
    (h : d.challenge = some c) :
    feishu_webhook contentParse store (.valid d)
      = (WebhookResponse.challengeEcho c, none) := by
  simp only [feishu_webhook, h]

/-- Witness for C9 at the payload containing challenge "abc123". -/
theorem c9_challenge_echo_no_processing_witness :
    ({ challenge := some "abc123" } : WebhookData).challenge = some "abc123"
    ∧ feishu_webhook (fun _ => none) (fun _ => none)
        (WebhookBody.valid { challenge := some "abc123" })
      = (WebhookResponse.challengeEcho "abc123", none) :=
  ⟨rfl, c9_challenge_echo_no_processing _ _ _ _ rfl⟩

end FeishuGaode
